import Mathlib

/-!
# Verification of the pen layer compositor (`PenSkin`)

This file is a shallow embedding of `src/PenSkin.js` of the `scratch-render`
repository: the pen layer compositor that batches line segments into vertex
streams, maintains a raster canvas and a GPU export framebuffer reconciled by
two dirty flags, and produces a lazily-computed silhouette snapshot.

Modelling conventions:
* JS numbers are modelled as `ℚ` (the claims under study do not depend on
  floating-point rounding); `Math.sqrt` is kept as an uninterpreted function
  parameter `sq : ℚ → ℚ` since no claim depends on its value.
* A `Float32Array` is modelled as `TypedArray`: a fixed length plus a total
  content function; out-of-bounds writes are dropped, as in JS.
* GPU calls are effects: resource allocation/release is tracked by boolean
  flags and an allocation generation counter; uploads, pixel read-backs and
  silhouette handoffs are tracked by counters and logs.  Pixel contents are
  not modelled (no claim is about pixel values).
* The host renderer's `enterDrawRegion` is repository code that is not under
  `src/`; it is modelled from the spec (see `enterDrawRegion` below).
-/

/-- Model of a JS `Float32Array`: a fixed length and total contents.
Out-of-bounds writes are silently dropped, as in JS. -/
structure TypedArray where
  data : ℕ → ℚ
  length : ℕ

/-- Write `v` at index `i`; a write at an index `≥ length` is a no-op
(JS typed-array semantics). -/
def TypedArray.write (a : TypedArray) (i : ℕ) (v : ℚ) : TypedArray :=
  if i < a.length then { a with data := Function.update a.data i v } else a

/-- Sequentially write the values `vs` starting at cursor `i`
(the `arr[idx] = v; idx++` pattern of the source), returning the new array
and cursor. -/
def pushList : List ℚ → TypedArray × ℕ → TypedArray × ℕ
  | [], p => p
  | v :: vs, (a, i) => pushList vs (a.write i v, i + 1)

/-- An RGBA color, components in caller space (straight alpha on input). -/
structure Color4 where
  r : ℚ
  g : ℚ
  b : ℚ
  a : ℚ

/-- Pen attributes (`PenSkin#PenAttributes`): both fields optional in JS. -/
structure PenAttributes where
  diameter : Option ℚ
  color4f : Option Color4

/-- Default pen diameter (`DefaultPenAttributes.diameter`). -/
def defaultDiameter : ℚ := 1

/-- Default pen color (`DefaultPenAttributes.color4f = [0, 0, 1, 1]`). -/
def defaultColor4f : Color4 := ⟨0, 0, 1, 1⟩

/-- The pen attributes to use when unspecified (`DefaultPenAttributes`). -/
def DefaultPenAttributes : PenAttributes := ⟨some defaultDiameter, some defaultColor4f⟩

/-- JS `x || d` for an optional number: `undefined` and `0` are falsy. -/
def jsOrNum (v : Option ℚ) (d : ℚ) : ℚ :=
  match v with
  | none => d
  | some x => if x = 0 then d else x

/-- Source `penAttributes.diameter || DefaultPenAttributes.diameter`. -/
def effDiameter (p : PenAttributes) : ℚ := jsOrNum p.diameter defaultDiameter

/-- Source `penAttributes.color4f || DefaultPenAttributes.color4f` (an array is
always truthy in JS, so only `undefined` falls back). -/
def effColor (p : PenAttributes) : Color4 := p.color4f.getD defaultColor4f

/-- JS `Math.round`: round half toward positive infinity. -/
def jsRound (x : ℚ) : ℤ := ⌊x + 1 / 2⌋

/-- The two draw regions this component registers with the renderer's draw
region guard: `_lineOnBufferDrawRegionId` and `_toBufferDrawRegionId`. -/
inductive Region where
  | line
  | toBuffer
deriving DecidableEq

/-- The state of a `PenSkin` instance (plus the renderer's current draw
region, which the component's behaviour depends on). -/
structure PenState where
  /-- Source `this._canvasDirty`: the raster canvas has stamp content not yet
  merged into the export framebuffer. -/
  canvasDirty : Bool
  /-- Source `this._silhouetteDirty`: composited content changed since the last
  pixel read-back. -/
  silhouetteDirty : Bool
  /-- Source `this.a_lineColor` (capacity 65520 floats). -/
  aLineColor : TypedArray
  /-- Source `this.a_lineColorIndex`. -/
  aLineColorIndex : ℕ
  /-- Source `this.a_lineThicknessAndLength` (capacity 32760 floats). -/
  aLineThicknessAndLength : TypedArray
  /-- Source `this.a_lineThicknessAndLengthIndex`. -/
  aLineThicknessAndLengthIndex : ℕ
  /-- Source `this.a_penPoints` (capacity 65520 floats). -/
  aPenPoints : TypedArray
  /-- Source `this.a_penPointsIndex`. -/
  aPenPointsIndex : ℕ
  /-- The renderer's currently-entered draw region (restricted to the two
  regions owned by this component; `none` = no region). -/
  currentRegion : Option Region
  /-- Source `this.renderQuality`. -/
  renderQuality : ℚ
  /-- Source `this._nativeSize`. -/
  nativeSize : ℤ × ℤ
  /-- Source `this._canvas.width` (backing-buffer width). -/
  canvasWidth : ℤ
  /-- Source `this._canvas.height` (backing-buffer height). -/
  canvasHeight : ℤ
  /-- Source `this._bounds.width`. -/
  boundsWidth : ℤ
  /-- Source `this._bounds.height`. -/
  boundsHeight : ℤ
  /-- Source `this._rotationCenter[0]`. -/
  rotationCenterX : ℚ
  /-- Source `this._rotationCenter[1]`. -/
  rotationCenterY : ℚ
  /-- Whether the canvas-mirror texture `this._texture` is currently an
  allocated (non-deleted) GPU resource. -/
  mirrorTextureAlloc : Bool
  /-- Whether `this._exportTexture` is currently an allocated GPU resource. -/
  exportTextureAlloc : Bool
  /-- Whether the field `this._exportTexture` is still `null` (true only
  before the first `_setCanvasSize`; deletion does not null the field). -/
  exportTextureNull : Bool
  /-- Identity (generation) of the current export texture handle. -/
  exportTextureGen : ℕ
  /-- Whether `this._framebuffer` is currently an allocated GPU resource. -/
  framebufferAlloc : Bool
  /-- Whether `this._silhouetteBuffer` is currently an allocated GPU
  resource. -/
  silhouetteBufferAlloc : Bool
  /-- Whether the line vertex buffers (`this._lineBufferInfo`) are
  allocated GPU resources. -/
  lineBufferAlloc : Bool
  /-- Whether the `NativeSizeChanged` listener is registered. -/
  listenerRegistered : Bool
  /-- Counts surface (re)allocations performed by `_setCanvasSize`. -/
  allocGen : ℕ
  /-- Byte size of `this._silhouettePixels`. -/
  silhouettePixelsSize : ℤ
  /-- Width of `this._silhouetteImageData`. -/
  silhouetteImageDataW : ℤ
  /-- Height of `this._silhouetteImageData`. -/
  silhouetteImageDataH : ℤ
  /-- Counts canvas→texture uploads (`texImage2D` of the canvas). -/
  canvasUploads : ℕ
  /-- Log of `readPixels` rectangles (width, height). -/
  readbacks : List (ℤ × ℤ)
  /-- Log of silhouette handoffs: image-data size and the `isPremultiplied`
  flag passed to `this._silhouette.update`. -/
  silhouetteUpdates : List (ℤ × ℤ × Bool)
  /-- Counts `_flushLines` invocations. -/
  flushCount : ℕ
  /-- Log of raster-canvas stamp draws (`ctx.drawImage` positions). -/
  stampLog : List (ℚ × ℚ)

/-- Getter `size`: the "native" size of the pen layer is always the native
size of the renderer — not the backing-buffer size. -/
def PenState.size (s : PenState) : ℤ × ℤ := s.nativeSize

/-- Source `_flushLines`: upload the written portion of the attribute arrays, issue
one triangle draw of `a_lineThicknessAndLengthIndex / 2` vertices, reset all
three cursors to 0 and mark the silhouette dirty.  The GL upload and the
draw itself are pixel-content effects tracked only by `flushCount`. -/
def flushLines (s : PenState) : PenState :=
  { s with
    aLineColorIndex := 0
    aLineThicknessAndLengthIndex := 0
    aPenPointsIndex := 0
    silhouetteDirty := true
    flushCount := s.flushCount + 1 }

/-- Source `_enterDrawLineOnBuffer`: bind framebuffer, viewport, line shader and
uniforms (GL-only effects), and reset the three batch cursors to 0. -/
def enterDrawLineOnBuffer (s : PenState) : PenState :=
  { s with
    aLineColorIndex := 0
    aLineThicknessAndLengthIndex := 0
    aPenPointsIndex := 0 }

/-- Source `_exitDrawLineOnBuffer`: flush pending lines if the batch is non-empty,
then unbind the framebuffer. -/
def exitDrawLineOnBuffer (s : PenState) : PenState :=
  if s.aLineColorIndex ≠ 0 then flushLines s else s

/-- Source `_enterDrawToBuffer`: bind framebuffer, viewport and stamp shader
(GL-only effects; no tracked state changes). -/
def enterDrawToBuffer (s : PenState) : PenState := s

/-- Source `_exitDrawToBuffer`: unbind the framebuffer (GL-only effect). -/
def exitDrawToBuffer (s : PenState) : PenState := s

/-- Dispatch a region's `enter` callback. -/
def regionEnter : Region → PenState → PenState
  | Region.line, s => enterDrawLineOnBuffer s
  | Region.toBuffer, s => enterDrawToBuffer s

/-- Dispatch a region's `exit` callback. -/
def regionExit : Region → PenState → PenState
  | Region.line, s => exitDrawLineOnBuffer s
  | Region.toBuffer, s => exitDrawToBuffer s

/-- Modelled from the spec: the host renderer's `enterDrawRegion` (draw
region guard, spec §4.2) is repository code not under `src/`.  Per the spec:
if the guard is already inside the region, no-op; otherwise run the exit
callback of the currently-entered region (if any), then the enter callback
of the new one, and record the new region as current. -/
def enterDrawRegion (s : PenState) (r : Region) : PenState :=
  if s.currentRegion = some r then s
  else
    let s1 := match s.currentRegion with
      | none => s
      | some prev => regionExit prev s
    let s2 := regionEnter r s1
    { s2 with currentRegion := some r }

/-- One iteration of the 6-vertex loop body of `_drawLineOnBuffer`: write
4 color floats, thickness and length, and the 4 pen-point floats
`(x0, -y0, lineDiffX, -lineDiffY)`, advancing each cursor as it goes. -/
def writeLineVertex (c : Color4) (th ln x0 y0 dx dy : ℚ) (s : PenState) : PenState :=
  let col := pushList [c.r, c.g, c.b, c.a] (s.aLineColor, s.aLineColorIndex)
  let tl := pushList [th, ln] (s.aLineThicknessAndLength, s.aLineThicknessAndLengthIndex)
  let pts := pushList [x0, -y0, dx, -dy] (s.aPenPoints, s.aPenPointsIndex)
  { s with
    aLineColor := col.1
    aLineColorIndex := col.2
    aLineThicknessAndLength := tl.1
    aLineThicknessAndLengthIndex := tl.2
    aPenPoints := pts.1
    aPenPointsIndex := pts.2 }

/-- The `for (let i = 0; i < 6; i++)` loop of `_drawLineOnBuffer`. -/
def appendSegment (c : Color4) (th ln x0 y0 dx dy : ℚ) (s : PenState) : PenState :=
  (List.range 6).foldl (fun t _ => writeLineVertex c th ln x0 y0 dx dy t) s

/-- Premultiply the pen color by the pen transparency
(`__premultipliedColor[i] = penColor[i] * penColor[3]`). -/
def premul (c : Color4) : Color4 := ⟨c.r * c.a, c.g * c.a, c.b * c.a, c.a⟩

/-- The Scratch 2.0 compatibility offset of `drawLine`:
`(diameter === 1 || diameter === 3) ? 0.5 : 0`. -/
def penOffset (diameter : ℚ) : ℚ := if diameter = 1 ∨ diameter = 3 then 1 / 2 else 0

/-- Source `_drawLineOnBuffer`: enter the line draw region; flush first if
appending 24 color floats would overflow the color array; premultiply the
pen color by its alpha; compute the segment length in caller space; then
append the 6 vertex records. -/
def drawLineOnBuffer (sq : ℚ → ℚ) (s : PenState) (p : PenAttributes)
    (x0 y0 x1 y1 : ℚ) : PenState :=
  let s1 := enterDrawRegion s Region.line
  let s2 := if s1.aLineColorIndex + 24 > s1.aLineColor.length then flushLines s1 else s1
  let pm := premul (effColor p)
  let lineDiffX := x1 - x0
  let lineDiffY := y1 - y0
  let lineLength := sq (lineDiffX * lineDiffX + lineDiffY * lineDiffY)
  let lineThickness := effDiameter p
  appendSegment pm lineThickness lineLength x0 y0 lineDiffX lineDiffY s2

/-- Source `drawLine`: for compatibility with Scratch 2.0, offset lines of width 1
and 3 by half a pixel so they are pixel-aligned; draw on the buffer; mark
the silhouette dirty. -/
def drawLine (sq : ℚ → ℚ) (s : PenState) (p : PenAttributes)
    (x0 y0 x1 y1 : ℚ) : PenState :=
  let diameter := effDiameter p
  let offset := penOffset diameter
  let s1 := drawLineOnBuffer sq s p (x0 + offset) (y0 + offset) (x1 + offset) (y1 + offset)
  { s1 with silhouetteDirty := true }

/-- Source `drawPoint`: a zero-length line renders as two end-caps back-to-back. -/
def drawPoint (sq : ℚ → ℚ) (s : PenState) (p : PenAttributes) (x y : ℚ) : PenState :=
  drawLine sq s p x y x y

/-- Source `clear`: reset the export framebuffer to transparent black and clear the
raster canvas (pixel-content effects), and mark the silhouette dirty. -/
def clear (s : PenState) : PenState :=
  { s with silhouetteDirty := true }

/-- Source `drawStamp`: draw the stamp element onto the raster canvas at
`(rotationCenterX + x, rotationCenterY - y)` and mark both dirty flags. -/
def drawStamp (s : PenState) (x y : ℚ) : PenState :=
  { s with
    stampLog := s.stampLog ++ [(s.rotationCenterX + x, s.rotationCenterY - y)]
    canvasDirty := true
    silhouetteDirty := true }

/-- Source `_drawToBuffer()` called with its default argument `this._texture`:
upload the canvas into the mirror texture, clear the canvas, clear
`_canvasDirty`, enter the to-buffer draw region and draw the textured
rectangle into the export framebuffer, marking the silhouette dirty. -/
def drawToBufferMirror (s : PenState) : PenState :=
  let s1 := { s with canvasUploads := s.canvasUploads + 1, canvasDirty := false }
  let s2 := enterDrawRegion s1 Region.toBuffer
  { s2 with silhouetteDirty := true }

/-- Source `_drawToBuffer(texture)` called with a texture other than
`this._texture` (the resize path): first merge the canvas if it is dirty,
then draw the given texture as a rectangle into the export framebuffer. -/
def drawToBufferOther (s : PenState) : PenState :=
  let s1 := if s.canvasDirty then drawToBufferMirror s else s
  let s2 := enterDrawRegion s1 Region.toBuffer
  { s2 with silhouetteDirty := true }

/-- Source `getTexture`: if the canvas is dirty, merge it into the export
framebuffer; return the export texture handle.  The requested size
arguments are ignored by the source. -/
def getTexture (s : PenState) : PenState × ℕ :=
  let s1 := if s.canvasDirty then drawToBufferMirror s else s
  (s1, s1.exportTextureGen)

/-- Source `updateSilhouette`: if the silhouette is dirty, merge the canvas if
needed, enter the to-buffer region, read back the full canvas-sized pixel
rectangle, hand the image data to the owning skin's silhouette updater with
`isPremultiplied = true`, and clear the dirty flag. -/
def updateSilhouette (s : PenState) : PenState :=
  if s.silhouetteDirty then
    let s1 := if s.canvasDirty then drawToBufferMirror s else s
    let s2 := enterDrawRegion s1 Region.toBuffer
    let s3 := { s2 with
      readbacks := s2.readbacks ++ [(s2.canvasWidth, s2.canvasHeight)]
      silhouetteUpdates :=
        s2.silhouetteUpdates ++ [(s2.silhouetteImageDataW, s2.silhouetteImageDataH, true)] }
    { s3 with silhouetteDirty := false }
  else s

/-- Source `_setCanvasSize`: recompute bounds and rotation center, resize the
canvas, allocate a new mirror texture, export texture and framebuffers,
clear, redraw the old export texture into the new framebuffer if one
existed, reallocate the silhouette pixel buffers, and mark the silhouette
dirty. -/
def setCanvasSize (s : PenState) (width height : ℤ) : PenState :=
  let hadOldExport := !s.exportTextureNull
  let s1 := { s with
    boundsWidth := width
    boundsHeight := height
    canvasWidth := width
    canvasHeight := height
    rotationCenterX := (s.nativeSize.1 : ℚ) / 2
    rotationCenterY := (s.nativeSize.2 : ℚ) / 2 }
  let s2 := { s1 with
    mirrorTextureAlloc := true
    exportTextureAlloc := true
    exportTextureNull := false
    exportTextureGen := s1.allocGen + 1
    framebufferAlloc := true
    silhouetteBufferAlloc := true
    allocGen := s1.allocGen + 1 }
  let s3 := if hadOldExport then drawToBufferOther s2 else s2
  { s3 with
    silhouettePixelsSize := width * height * 4
    silhouetteImageDataW := width
    silhouetteImageDataH := height
    silhouetteDirty := true }

/-- Source `onNativeSizeChanged`: track the new native size and resize. -/
def onNativeSizeChanged (s : PenState) (newW newH : ℤ) : PenState :=
  let s1 := { s with nativeSize := (newW, newH) }
  setCanvasSize s1 newW newH

/-- Source `setRenderQuality`: no-op when unchanged; otherwise resize the backing
buffers to `round(nativeSize * quality)`. -/
def setRenderQuality (s : PenState) (quality : ℚ) : PenState :=
  if s.renderQuality = quality then s
  else
    let s1 := { s with renderQuality := quality }
    setCanvasSize s1 (jsRound ((s1.nativeSize.1 : ℚ) * quality))
      (jsRound ((s1.nativeSize.2 : ℚ) * quality))

/-- Source `dispose`: remove the `NativeSizeChanged` listener and delete the mirror
texture and the export texture.  (No other deletions appear in the
source's `dispose`.) -/
def dispose (s : PenState) : PenState :=
  { s with
    listenerRegistered := false
    mirrorTextureAlloc := false
    exportTextureAlloc := false }

/-- The constructor: flags start false, `_createLineGeometry` allocates the
batch arrays with cursors 0, the listener is registered, and
`_setCanvasSize(renderer.getNativeSize())` runs last. -/
def init (w h : ℤ) : PenState :=
  let s : PenState := {
    canvasDirty := false
    silhouetteDirty := false
    aLineColor := { data := fun _ => 0, length := 65520 }
    aLineColorIndex := 0
    aLineThicknessAndLength := { data := fun _ => 0, length := 32760 }
    aLineThicknessAndLengthIndex := 0
    aPenPoints := { data := fun _ => 0, length := 65520 }
    aPenPointsIndex := 0
    currentRegion := none
    renderQuality := 1
    nativeSize := (w, h)
    canvasWidth := 0
    canvasHeight := 0
    boundsWidth := 0
    boundsHeight := 0
    rotationCenterX := 0
    rotationCenterY := 0
    mirrorTextureAlloc := false
    exportTextureAlloc := false
    exportTextureNull := true
    exportTextureGen := 0
    framebufferAlloc := false
    silhouetteBufferAlloc := false
    lineBufferAlloc := true
    listenerRegistered := true
    allocGen := 0
    silhouettePixelsSize := 0
    silhouetteImageDataW := 0
    silhouetteImageDataH := 0
    canvasUploads := 0
    readbacks := []
    silhouetteUpdates := []
    flushCount := 0
    stampLog := [] }
  setCanvasSize s w h

/-- The public operations of the component (the op set of the claims). -/
inductive Op where
  | clear
  | drawPoint (p : PenAttributes) (x y : ℚ)
  | drawLine (p : PenAttributes) (x0 y0 x1 y1 : ℚ)
  | drawStamp (x y : ℚ)
  | getTexture
  | updateSilhouette
  | setRenderQuality (q : ℚ)
  | nativeSizeChanged (w h : ℤ)

/-- Execute one public operation. -/
def step (sq : ℚ → ℚ) (s : PenState) : Op → PenState
  | Op.clear => clear s
  | Op.drawPoint p x y => drawPoint sq s p x y
  | Op.drawLine p x0 y0 x1 y1 => drawLine sq s p x0 y0 x1 y1
  | Op.drawStamp x y => drawStamp s x y
  | Op.getTexture => (getTexture s).1
  | Op.updateSilhouette => updateSilhouette s
  | Op.setRenderQuality q => setRenderQuality s q
  | Op.nativeSizeChanged w h => onNativeSizeChanged s w h

/-- Execute a sequence of public operations. -/
def run (sq : ℚ → ℚ) (s : PenState) (ops : List Op) : PenState :=
  ops.foldl (step sq) s

/-- A state is reachable when some sequence of public operations produces it
from a freshly constructed instance. -/
def Reachable (sq : ℚ → ℚ) (s : PenState) : Prop :=
  ∃ w h ops, run sq (init w h) ops = s

/-- A concrete stand-in for `Math.sqrt` used in witnesses (the development
never depends on the value of the square root). -/
def constSqrt : ℚ → ℚ := fun _ => 0

/-! ## Array and batch helper lemmas -/

theorem TypedArray.write_length (a : TypedArray) (i : ℕ) (v : ℚ) :
    (a.write i v).length = a.length := by
  unfold TypedArray.write
  split <;> rfl

theorem TypedArray.write_data_self (a : TypedArray) (i : ℕ) (v : ℚ) (h : i < a.length) :
    (a.write i v).data i = v := by
  unfold TypedArray.write
  rw [if_pos h]
  exact Function.update_same i v a.data

theorem TypedArray.write_data_ne (a : TypedArray) (i j : ℕ) (v : ℚ) (h : j ≠ i) :
    (a.write i v).data j = a.data j := by
  unfold TypedArray.write
  split
  · exact Function.update_noteq h v a.data
  · rfl

theorem pushList_length (vs : List ℚ) : ∀ (a : TypedArray) (i : ℕ),
    (pushList vs (a, i)).1.length = a.length := by
  induction vs with
  | nil => intro a i; rfl
  | cons v vs ih =>
    intro a i
    show (pushList vs (a.write i v, i + 1)).1.length = a.length
    rw [ih, TypedArray.write_length]

theorem pushList_idx (vs : List ℚ) : ∀ (a : TypedArray) (i : ℕ),
    (pushList vs (a, i)).2 = i + vs.length := by
  induction vs with
  | nil => intro a i; simp [pushList]
  | cons v vs ih =>
    intro a i
    show (pushList vs (a.write i v, i + 1)).2 = i + (vs.length + 1)
    rw [ih]
    omega

theorem pushList_data_lt (vs : List ℚ) : ∀ (a : TypedArray) (i j : ℕ), j < i →
    (pushList vs (a, i)).1.data j = a.data j := by
  induction vs with
  | nil => intro a i j _; rfl
  | cons v vs ih =>
    intro a i j h
    show (pushList vs (a.write i v, i + 1)).1.data j = a.data j
    rw [ih (a.write i v) (i + 1) j (by omega)]
    exact TypedArray.write_data_ne a i j v (by omega)

theorem pushList_data_get (vs : List ℚ) : ∀ (a : TypedArray) (i j : ℕ),
    j < vs.length → i + vs.length ≤ a.length →
    (pushList vs (a, i)).1.data (i + j) = vs.getD j 0 := by
  induction vs with
  | nil => intro a i j hj _; exact absurd hj (by simp)
  | cons v vs ih =>
    intro a i j hj hcap
    cases j with
    | zero =>
      show (pushList vs (a.write i v, i + 1)).1.data i = v
      rw [pushList_data_lt vs (a.write i v) (i + 1) i (by omega)]
      exact TypedArray.write_data_self a i v (by simp at hcap; omega)
    | succ j' =>
      show (pushList vs (a.write i v, i + 1)).1.data (i + (j' + 1)) = vs.getD j' 0
      have harith : i + (j' + 1) = (i + 1) + j' := by omega
      rw [harith]
      exact ih (a.write i v) (i + 1) j' (by simp at hj; omega)
        (by rw [TypedArray.write_length]; simp at hcap ⊢; omega)


theorem pushList_append (u v : List ℚ) : ∀ p : TypedArray × ℕ,
    pushList (u ++ v) p = pushList v (pushList u p) := by
  induction u with
  | nil => intro p; rfl
  | cons w u ih =>
    intro p
    obtain ⟨a, i⟩ := p
    show pushList (u ++ v) (a.write i w, i + 1) = pushList v (pushList u (a.write i w, i + 1))
    exact ih (a.write i w, i + 1)

/-! Per-vertex characterization of the loop body, then the 6-iteration loop. -/

theorem writeLineVertex_colorPair (c : Color4) (th ln x0 y0 dx dy : ℚ) (s : PenState) :
    ((writeLineVertex c th ln x0 y0 dx dy s).aLineColor,
      (writeLineVertex c th ln x0 y0 dx dy s).aLineColorIndex) =
    pushList [c.r, c.g, c.b, c.a] (s.aLineColor, s.aLineColorIndex) := rfl

theorem writeLineVertex_tlPair (c : Color4) (th ln x0 y0 dx dy : ℚ) (s : PenState) :
    ((writeLineVertex c th ln x0 y0 dx dy s).aLineThicknessAndLength,
      (writeLineVertex c th ln x0 y0 dx dy s).aLineThicknessAndLengthIndex) =
    pushList [th, ln] (s.aLineThicknessAndLength, s.aLineThicknessAndLengthIndex) := rfl

theorem writeLineVertex_ptsPair (c : Color4) (th ln x0 y0 dx dy : ℚ) (s : PenState) :
    ((writeLineVertex c th ln x0 y0 dx dy s).aPenPoints,
      (writeLineVertex c th ln x0 y0 dx dy s).aPenPointsIndex) =
    pushList [x0, -y0, dx, -dy] (s.aPenPoints, s.aPenPointsIndex) := rfl

theorem writeLineVertex_canvasDirty (c : Color4) (th ln x0 y0 dx dy : ℚ) (s : PenState) :
    (writeLineVertex c th ln x0 y0 dx dy s).canvasDirty = s.canvasDirty := rfl

theorem writeLineVertex_silhouetteDirty (c : Color4) (th ln x0 y0 dx dy : ℚ) (s : PenState) :
    (writeLineVertex c th ln x0 y0 dx dy s).silhouetteDirty = s.silhouetteDirty := rfl

theorem writeLineVertex_currentRegion (c : Color4) (th ln x0 y0 dx dy : ℚ) (s : PenState) :
    (writeLineVertex c th ln x0 y0 dx dy s).currentRegion = s.currentRegion := rfl

theorem writeLineVertex_flushCount (c : Color4) (th ln x0 y0 dx dy : ℚ) (s : PenState) :
    (writeLineVertex c th ln x0 y0 dx dy s).flushCount = s.flushCount := rfl

theorem appendSegment_eq (c : Color4) (th ln x0 y0 dx dy : ℚ) (s : PenState) :
    appendSegment c th ln x0 y0 dx dy s =
    writeLineVertex c th ln x0 y0 dx dy (writeLineVertex c th ln x0 y0 dx dy
      (writeLineVertex c th ln x0 y0 dx dy (writeLineVertex c th ln x0 y0 dx dy
        (writeLineVertex c th ln x0 y0 dx dy (writeLineVertex c th ln x0 y0 dx dy s))))) := rfl

/-- The 24 color floats appended for one segment (6 copies of the
premultiplied color). -/
def segColorList (c : Color4) : List ℚ :=
  [c.r, c.g, c.b, c.a, c.r, c.g, c.b, c.a, c.r, c.g, c.b, c.a,
   c.r, c.g, c.b, c.a, c.r, c.g, c.b, c.a, c.r, c.g, c.b, c.a]

/-- The 12 thickness/length floats appended for one segment. -/
def segTLList (th ln : ℚ) : List ℚ :=
  [th, ln, th, ln, th, ln, th, ln, th, ln, th, ln]

/-- The 24 pen-point floats appended for one segment. -/
def segPtsList (x0 y0 dx dy : ℚ) : List ℚ :=
  [x0, -y0, dx, -dy, x0, -y0, dx, -dy, x0, -y0, dx, -dy,
   x0, -y0, dx, -dy, x0, -y0, dx, -dy, x0, -y0, dx, -dy]

theorem appendSegment_colorPair (c : Color4) (th ln x0 y0 dx dy : ℚ) (s : PenState) :
    ((appendSegment c th ln x0 y0 dx dy s).aLineColor,
      (appendSegment c th ln x0 y0 dx dy s).aLineColorIndex) =
    pushList (segColorList c) (s.aLineColor, s.aLineColorIndex) := by
  rw [appendSegment_eq]
  rw [writeLineVertex_colorPair, writeLineVertex_colorPair, writeLineVertex_colorPair,
    writeLineVertex_colorPair, writeLineVertex_colorPair, writeLineVertex_colorPair]
  rw [← pushList_append, ← pushList_append, ← pushList_append, ← pushList_append,
    ← pushList_append]
  rfl

theorem appendSegment_tlPair (c : Color4) (th ln x0 y0 dx dy : ℚ) (s : PenState) :
    ((appendSegment c th ln x0 y0 dx dy s).aLineThicknessAndLength,
      (appendSegment c th ln x0 y0 dx dy s).aLineThicknessAndLengthIndex) =
    pushList (segTLList th ln) (s.aLineThicknessAndLength, s.aLineThicknessAndLengthIndex) := by
  rw [appendSegment_eq]
  rw [writeLineVertex_tlPair, writeLineVertex_tlPair, writeLineVertex_tlPair,
    writeLineVertex_tlPair, writeLineVertex_tlPair, writeLineVertex_tlPair]
  rw [← pushList_append, ← pushList_append, ← pushList_append, ← pushList_append,
    ← pushList_append]
  rfl

theorem appendSegment_ptsPair (c : Color4) (th ln x0 y0 dx dy : ℚ) (s : PenState) :
    ((appendSegment c th ln x0 y0 dx dy s).aPenPoints,
      (appendSegment c th ln x0 y0 dx dy s).aPenPointsIndex) =
    pushList (segPtsList x0 y0 dx dy) (s.aPenPoints, s.aPenPointsIndex) := by
  rw [appendSegment_eq]
  rw [writeLineVertex_ptsPair, writeLineVertex_ptsPair, writeLineVertex_ptsPair,
    writeLineVertex_ptsPair, writeLineVertex_ptsPair, writeLineVertex_ptsPair]
  rw [← pushList_append, ← pushList_append, ← pushList_append, ← pushList_append,
    ← pushList_append]
  rfl

theorem appendSegment_color (c : Color4) (th ln x0 y0 dx dy : ℚ) (s : PenState) :
    (appendSegment c th ln x0 y0 dx dy s).aLineColor =
    (pushList (segColorList c) (s.aLineColor, s.aLineColorIndex)).1 := by
  have h := congrArg Prod.fst (appendSegment_colorPair c th ln x0 y0 dx dy s)
  dsimp only at h
  exact h

theorem appendSegment_colorIdx (c : Color4) (th ln x0 y0 dx dy : ℚ) (s : PenState) :
    (appendSegment c th ln x0 y0 dx dy s).aLineColorIndex = s.aLineColorIndex + 24 := by
  have h := congrArg Prod.snd (appendSegment_colorPair c th ln x0 y0 dx dy s)
  rw [pushList_idx] at h
  simpa [segColorList] using h

theorem appendSegment_tl (c : Color4) (th ln x0 y0 dx dy : ℚ) (s : PenState) :
    (appendSegment c th ln x0 y0 dx dy s).aLineThicknessAndLength =
    (pushList (segTLList th ln) (s.aLineThicknessAndLength, s.aLineThicknessAndLengthIndex)).1 := by
  have h := congrArg Prod.fst (appendSegment_tlPair c th ln x0 y0 dx dy s)
  dsimp only at h
  exact h

theorem appendSegment_tlIdx (c : Color4) (th ln x0 y0 dx dy : ℚ) (s : PenState) :
    (appendSegment c th ln x0 y0 dx dy s).aLineThicknessAndLengthIndex =
    s.aLineThicknessAndLengthIndex + 12 := by
  have h := congrArg Prod.snd (appendSegment_tlPair c th ln x0 y0 dx dy s)
  rw [pushList_idx] at h
  simpa [segTLList] using h

theorem appendSegment_pts (c : Color4) (th ln x0 y0 dx dy : ℚ) (s : PenState) :
    (appendSegment c th ln x0 y0 dx dy s).aPenPoints =
    (pushList (segPtsList x0 y0 dx dy) (s.aPenPoints, s.aPenPointsIndex)).1 := by
  have h := congrArg Prod.fst (appendSegment_ptsPair c th ln x0 y0 dx dy s)
  dsimp only at h
  exact h

theorem appendSegment_ptsIdx (c : Color4) (th ln x0 y0 dx dy : ℚ) (s : PenState) :
    (appendSegment c th ln x0 y0 dx dy s).aPenPointsIndex = s.aPenPointsIndex + 24 := by
  have h := congrArg Prod.snd (appendSegment_ptsPair c th ln x0 y0 dx dy s)
  rw [pushList_idx] at h
  simpa [segPtsList] using h

theorem appendSegment_canvasDirty (c : Color4) (th ln x0 y0 dx dy : ℚ) (s : PenState) :
    (appendSegment c th ln x0 y0 dx dy s).canvasDirty = s.canvasDirty := by
  rw [appendSegment_eq]
  simp only [writeLineVertex_canvasDirty]

theorem appendSegment_silhouetteDirty (c : Color4) (th ln x0 y0 dx dy : ℚ) (s : PenState) :
    (appendSegment c th ln x0 y0 dx dy s).silhouetteDirty = s.silhouetteDirty := by
  rw [appendSegment_eq]
  simp only [writeLineVertex_silhouetteDirty]

theorem appendSegment_currentRegion (c : Color4) (th ln x0 y0 dx dy : ℚ) (s : PenState) :
    (appendSegment c th ln x0 y0 dx dy s).currentRegion = s.currentRegion := by
  rw [appendSegment_eq]
  simp only [writeLineVertex_currentRegion]

theorem appendSegment_flushCount (c : Color4) (th ln x0 y0 dx dy : ℚ) (s : PenState) :
    (appendSegment c th ln x0 y0 dx dy s).flushCount = s.flushCount := by
  rw [appendSegment_eq]
  simp only [writeLineVertex_flushCount]

/-! ## Projection lemmas for the region guard and merge paths -/

theorem enterDrawRegion_currentRegion (s : PenState) (r : Region) :
    (enterDrawRegion s r).currentRegion = some r := by
  unfold enterDrawRegion
  split
  · assumption
  · rfl

theorem enterDrawRegion_pres (s : PenState) (r : Region) :
    (enterDrawRegion s r).canvasDirty = s.canvasDirty ∧
    (enterDrawRegion s r).canvasUploads = s.canvasUploads ∧
    (enterDrawRegion s r).canvasWidth = s.canvasWidth ∧
    (enterDrawRegion s r).canvasHeight = s.canvasHeight ∧
    (enterDrawRegion s r).silhouetteImageDataW = s.silhouetteImageDataW ∧
    (enterDrawRegion s r).silhouetteImageDataH = s.silhouetteImageDataH ∧
    (enterDrawRegion s r).readbacks = s.readbacks ∧
    (enterDrawRegion s r).silhouetteUpdates = s.silhouetteUpdates ∧
    (enterDrawRegion s r).nativeSize = s.nativeSize ∧
    (enterDrawRegion s r).exportTextureGen = s.exportTextureGen ∧
    (enterDrawRegion s r).renderQuality = s.renderQuality := by
  unfold enterDrawRegion regionExit regionEnter exitDrawLineOnBuffer exitDrawToBuffer
    enterDrawLineOnBuffer enterDrawToBuffer flushLines
  split
  · exact ⟨rfl, rfl, rfl, rfl, rfl, rfl, rfl, rfl, rfl, rfl, rfl⟩
  · cases hcur : s.currentRegion with
    | none => cases r <;> simp
    | some prev => cases prev <;> cases r <;> simp [hcur] <;> split <;> simp

theorem drawToBufferMirror_canvasDirty (s : PenState) :
    (drawToBufferMirror s).canvasDirty = false := by
  unfold drawToBufferMirror
  exact (enterDrawRegion_pres _ Region.toBuffer).1

theorem drawToBufferMirror_canvasUploads (s : PenState) :
    (drawToBufferMirror s).canvasUploads = s.canvasUploads + 1 := by
  unfold drawToBufferMirror
  exact (enterDrawRegion_pres _ Region.toBuffer).2.1

theorem drawToBufferMirror_pres (s : PenState) :
    (drawToBufferMirror s).canvasWidth = s.canvasWidth ∧
    (drawToBufferMirror s).canvasHeight = s.canvasHeight ∧
    (drawToBufferMirror s).silhouetteImageDataW = s.silhouetteImageDataW ∧
    (drawToBufferMirror s).silhouetteImageDataH = s.silhouetteImageDataH ∧
    (drawToBufferMirror s).readbacks = s.readbacks ∧
    (drawToBufferMirror s).silhouetteUpdates = s.silhouetteUpdates ∧
    (drawToBufferMirror s).nativeSize = s.nativeSize ∧
    (drawToBufferMirror s).exportTextureGen = s.exportTextureGen ∧
    (drawToBufferMirror s).renderQuality = s.renderQuality := by
  unfold drawToBufferMirror
  have h := enterDrawRegion_pres
    { s with canvasUploads := s.canvasUploads + 1, canvasDirty := false } Region.toBuffer
  exact ⟨h.2.2.1, h.2.2.2.1, h.2.2.2.2.1, h.2.2.2.2.2.1, h.2.2.2.2.2.2.1,
    h.2.2.2.2.2.2.2.1, h.2.2.2.2.2.2.2.2.1, h.2.2.2.2.2.2.2.2.2.1, h.2.2.2.2.2.2.2.2.2.2⟩

theorem drawToBufferOther_pres (s : PenState) :
    (drawToBufferOther s).canvasWidth = s.canvasWidth ∧
    (drawToBufferOther s).canvasHeight = s.canvasHeight ∧
    (drawToBufferOther s).nativeSize = s.nativeSize ∧
    (drawToBufferOther s).renderQuality = s.renderQuality := by
  unfold drawToBufferOther
  by_cases hc : s.canvasDirty
  · simp only [hc, if_pos]
    obtain ⟨m1, m2, -, -, -, -, m7, -, m9⟩ := drawToBufferMirror_pres s
    obtain ⟨-, -, e3, e4, -, -, -, -, e9, -, e11⟩ :=
      enterDrawRegion_pres (drawToBufferMirror s) Region.toBuffer
    exact ⟨by rw [e3, m1], by rw [e4, m2], by rw [e9, m7], by rw [e11, m9]⟩
  · simp only [hc]
    obtain ⟨-, -, e3, e4, -, -, -, -, e9, -, e11⟩ := enterDrawRegion_pres s Region.toBuffer
    exact ⟨e3, e4, e9, e11⟩

/-! ## The structural invariant -/

/-- The invariant maintained by every public operation: fixed array
capacities, write cursors in lockstep and within capacity holding whole
6-vertex records, and the dirty-flag implication. -/
structure PenInv (s : PenState) : Prop where
  colorLen : s.aLineColor.length = 65520
  tlLen : s.aLineThicknessAndLength.length = 32760
  ptsLen : s.aPenPoints.length = 65520
  lock1 : s.aLineColorIndex = s.aPenPointsIndex
  lock2 : s.aLineColorIndex = 2 * s.aLineThicknessAndLengthIndex
  stride : 24 ∣ s.aLineColorIndex
  cap : s.aLineColorIndex ≤ 65520
  flags : s.canvasDirty = true → s.silhouetteDirty = true

theorem inv_flushLines (s : PenState) (h : PenInv s) : PenInv (flushLines s) :=
  ⟨h.colorLen, h.tlLen, h.ptsLen, rfl, rfl, dvd_zero 24, Nat.zero_le _, fun _ => rfl⟩

theorem inv_enterDrawLineOnBuffer (s : PenState) (h : PenInv s) :
    PenInv (enterDrawLineOnBuffer s) :=
  ⟨h.colorLen, h.tlLen, h.ptsLen, rfl, rfl, dvd_zero 24, Nat.zero_le _, h.flags⟩

theorem inv_exitDrawLineOnBuffer (s : PenState) (h : PenInv s) :
    PenInv (exitDrawLineOnBuffer s) := by
  unfold exitDrawLineOnBuffer
  split
  · exact inv_flushLines s h
  · exact h

theorem inv_regionExit (prev : Region) (s : PenState) (h : PenInv s) :
    PenInv (regionExit prev s) := by
  cases prev
  · exact inv_exitDrawLineOnBuffer s h
  · exact h

theorem inv_regionEnter (r : Region) (s : PenState) (h : PenInv s) :
    PenInv (regionEnter r s) := by
  cases r
  · exact inv_enterDrawLineOnBuffer s h
  · exact h

theorem inv_withRegion (x : Option Region) (s : PenState) (h : PenInv s) :
    PenInv { s with currentRegion := x } :=
  ⟨h.colorLen, h.tlLen, h.ptsLen, h.lock1, h.lock2, h.stride, h.cap, h.flags⟩

theorem inv_enterDrawRegion (s : PenState) (r : Region) (h : PenInv s) :
    PenInv (enterDrawRegion s r) := by
  unfold enterDrawRegion
  split
  · exact h
  · cases hcur : s.currentRegion with
    | none => simp only [hcur]; exact inv_withRegion _ _ (inv_regionEnter r s h)
    | some prev =>
      simp only [hcur]
      exact inv_withRegion _ _ (inv_regionEnter r _ (inv_regionExit prev s h))

theorem inv_appendSegment (c : Color4) (th ln x0 y0 dx dy : ℚ) (s : PenState)
    (h : PenInv s) (hcap : s.aLineColorIndex + 24 ≤ 65520) :
    PenInv (appendSegment c th ln x0 y0 dx dy s) := by
  refine ⟨?_, ?_, ?_, ?_, ?_, ?_, ?_, ?_⟩
  · rw [appendSegment_color, pushList_length]; exact h.colorLen
  · rw [appendSegment_tl, pushList_length]; exact h.tlLen
  · rw [appendSegment_pts, pushList_length]; exact h.ptsLen
  · rw [appendSegment_colorIdx, appendSegment_ptsIdx, h.lock1]
  · rw [appendSegment_colorIdx, appendSegment_tlIdx, h.lock2]; ring
  · rw [appendSegment_colorIdx]; exact dvd_add h.stride (dvd_refl 24)
  · rw [appendSegment_colorIdx]; omega
  · intro hc
    rw [appendSegment_canvasDirty] at hc
    rw [appendSegment_silhouetteDirty]
    exact h.flags hc

theorem inv_withSilhouetteTrue (s : PenState) (h : PenInv s) :
    PenInv { s with silhouetteDirty := true } :=
  ⟨h.colorLen, h.tlLen, h.ptsLen, h.lock1, h.lock2, h.stride, h.cap, fun _ => rfl⟩

theorem inv_drawLineOnBuffer (sq : ℚ → ℚ) (s : PenState) (p : PenAttributes)
    (x0 y0 x1 y1 : ℚ) (h : PenInv s) : PenInv (drawLineOnBuffer sq s p x0 y0 x1 y1) := by
  unfold drawLineOnBuffer
  dsimp only
  have h1 := inv_enterDrawRegion s Region.line h
  by_cases hov : (enterDrawRegion s Region.line).aLineColorIndex + 24 >
      (enterDrawRegion s Region.line).aLineColor.length
  · rw [if_pos hov]
    exact inv_appendSegment _ _ _ _ _ _ _ _ (inv_flushLines _ h1) (by norm_num [flushLines])
  · rw [if_neg hov]
    refine inv_appendSegment _ _ _ _ _ _ _ _ h1 ?_
    rw [h1.colorLen] at hov
    omega

theorem inv_drawLine (sq : ℚ → ℚ) (s : PenState) (p : PenAttributes)
    (x0 y0 x1 y1 : ℚ) (h : PenInv s) : PenInv (drawLine sq s p x0 y0 x1 y1) := by
  unfold drawLine
  dsimp only
  exact inv_withSilhouetteTrue _ (inv_drawLineOnBuffer sq s p _ _ _ _ h)

theorem inv_drawPoint (sq : ℚ → ℚ) (s : PenState) (p : PenAttributes)
    (x y : ℚ) (h : PenInv s) : PenInv (drawPoint sq s p x y) :=
  inv_drawLine sq s p x y x y h

theorem inv_clear (s : PenState) (h : PenInv s) : PenInv (clear s) :=
  inv_withSilhouetteTrue s h

theorem inv_drawStamp (s : PenState) (x y : ℚ) (h : PenInv s) : PenInv (drawStamp s x y) :=
  ⟨h.colorLen, h.tlLen, h.ptsLen, h.lock1, h.lock2, h.stride, h.cap, fun _ => rfl⟩

theorem inv_drawToBufferMirror (s : PenState) (h : PenInv s) :
    PenInv (drawToBufferMirror s) := by
  unfold drawToBufferMirror
  dsimp only
  have h1 : PenInv { s with canvasUploads := s.canvasUploads + 1, canvasDirty := false } :=
    ⟨h.colorLen, h.tlLen, h.ptsLen, h.lock1, h.lock2, h.stride, h.cap, fun hc => nomatch hc⟩
  exact inv_withSilhouetteTrue _ (inv_enterDrawRegion _ Region.toBuffer h1)

theorem inv_drawToBufferOther (s : PenState) (h : PenInv s) :
    PenInv (drawToBufferOther s) := by
  unfold drawToBufferOther
  dsimp only
  by_cases hc : s.canvasDirty
  · simp only [hc, if_pos]
    exact inv_withSilhouetteTrue _ (inv_enterDrawRegion _ _ (inv_drawToBufferMirror s h))
  · simp only [hc]
    exact inv_withSilhouetteTrue _ (inv_enterDrawRegion _ _ h)

theorem inv_getTexture (s : PenState) (h : PenInv s) : PenInv (getTexture s).1 := by
  unfold getTexture
  dsimp only
  by_cases hc : s.canvasDirty
  · simp only [hc, if_pos]
    exact inv_drawToBufferMirror s h
  · simp only [hc]
    exact h

theorem inv_updateSilhouette (s : PenState) (h : PenInv s) :
    PenInv (updateSilhouette s) := by
  unfold updateSilhouette
  dsimp only
  split
  · have h1 : PenInv (if s.canvasDirty then drawToBufferMirror s else s) := by
      split
      · exact inv_drawToBufferMirror s h
      · exact h
    have hcd : (if s.canvasDirty then drawToBufferMirror s else s).canvasDirty = false := by
      cases hb : s.canvasDirty
      · rw [if_neg (by decide)]
        exact hb
      · rw [if_pos rfl]
        exact drawToBufferMirror_canvasDirty s
    have h2 := inv_enterDrawRegion (if s.canvasDirty then drawToBufferMirror s else s)
      Region.toBuffer h1
    have hcd2 : (enterDrawRegion (if s.canvasDirty then drawToBufferMirror s else s)
        Region.toBuffer).canvasDirty = false := by
      rw [(enterDrawRegion_pres _ Region.toBuffer).1, hcd]
    exact ⟨h2.colorLen, h2.tlLen, h2.ptsLen, h2.lock1, h2.lock2, h2.stride, h2.cap,
      fun hcc => Bool.noConfusion (hcd2.symm.trans hcc)⟩
  · exact h

theorem inv_setCanvasSize (s : PenState) (w h : ℤ) (hi : PenInv s) :
    PenInv (setCanvasSize s w h) := by
  unfold setCanvasSize
  dsimp only
  have h1 : PenInv { s with
      boundsWidth := w, boundsHeight := h, canvasWidth := w, canvasHeight := h,
      rotationCenterX := (s.nativeSize.1 : ℚ) / 2,
      rotationCenterY := (s.nativeSize.2 : ℚ) / 2,
      mirrorTextureAlloc := true, exportTextureAlloc := true, exportTextureNull := false,
      exportTextureGen := s.allocGen + 1, framebufferAlloc := true,
      silhouetteBufferAlloc := true, allocGen := s.allocGen + 1 } :=
    ⟨hi.colorLen, hi.tlLen, hi.ptsLen, hi.lock1, hi.lock2, hi.stride, hi.cap, hi.flags⟩
  split
  · have h2 := inv_drawToBufferOther _ h1
    exact ⟨h2.colorLen, h2.tlLen, h2.ptsLen, h2.lock1, h2.lock2, h2.stride, h2.cap,
      fun _ => rfl⟩
  · exact ⟨h1.colorLen, h1.tlLen, h1.ptsLen, h1.lock1, h1.lock2, h1.stride, h1.cap,
      fun _ => rfl⟩

theorem inv_onNativeSizeChanged (s : PenState) (w h : ℤ) (hi : PenInv s) :
    PenInv (onNativeSizeChanged s w h) := by
  unfold onNativeSizeChanged
  dsimp only
  exact inv_setCanvasSize _ w h
    ⟨hi.colorLen, hi.tlLen, hi.ptsLen, hi.lock1, hi.lock2, hi.stride, hi.cap, hi.flags⟩

theorem inv_setRenderQuality (s : PenState) (q : ℚ) (hi : PenInv s) :
    PenInv (setRenderQuality s q) := by
  unfold setRenderQuality
  dsimp only
  split
  · exact hi
  · exact inv_setCanvasSize _ _ _
      ⟨hi.colorLen, hi.tlLen, hi.ptsLen, hi.lock1, hi.lock2, hi.stride, hi.cap, hi.flags⟩

theorem inv_init (w h : ℤ) : PenInv (init w h) := by
  unfold init
  dsimp only
  exact inv_setCanvasSize _ w h
    ⟨rfl, rfl, rfl, rfl, rfl, dvd_zero 24, Nat.zero_le _, fun hc => nomatch hc⟩

theorem inv_step (sq : ℚ → ℚ) (s : PenState) (op : Op) (h : PenInv s) :
    PenInv (step sq s op) := by
  cases op with
  | clear => exact inv_clear s h
  | drawPoint p x y => exact inv_drawPoint sq s p x y h
  | drawLine p x0 y0 x1 y1 => exact inv_drawLine sq s p x0 y0 x1 y1 h
  | drawStamp x y => exact inv_drawStamp s x y h
  | getTexture => exact inv_getTexture s h
  | updateSilhouette => exact inv_updateSilhouette s h
  | setRenderQuality q => exact inv_setRenderQuality s q h
  | nativeSizeChanged w h2 => exact inv_onNativeSizeChanged s w h2 h

theorem inv_run (sq : ℚ → ℚ) (ops : List Op) : ∀ (s : PenState), PenInv s →
    PenInv (run sq s ops) := by
  induction ops with
  | nil => intro s h; exact h
  | cons op ops ih =>
    intro s h
    exact ih (step sq s op) (inv_step sq s op h)

theorem reachable_inv (sq : ℚ → ℚ) (s : PenState) (h : Reachable sq s) : PenInv s := by
  obtain ⟨w, hh, ops, rfl⟩ := h
  exact inv_run sq ops (init w hh) (inv_init w hh)

/-! ## Projection lemmas for drawLine and setCanvasSize -/

theorem drawLine_currentRegion (sq : ℚ → ℚ) (s : PenState) (p : PenAttributes)
    (x0 y0 x1 y1 : ℚ) :
    (drawLine sq s p x0 y0 x1 y1).currentRegion = some Region.line := by
  unfold drawLine drawLineOnBuffer
  dsimp only
  rw [appendSegment_currentRegion]
  split
  · exact enterDrawRegion_currentRegion s Region.line
  · exact enterDrawRegion_currentRegion s Region.line

theorem drawLine_canvasDirty (sq : ℚ → ℚ) (s : PenState) (p : PenAttributes)
    (x0 y0 x1 y1 : ℚ) :
    (drawLine sq s p x0 y0 x1 y1).canvasDirty = s.canvasDirty := by
  unfold drawLine drawLineOnBuffer
  dsimp only
  rw [appendSegment_canvasDirty]
  split
  · exact (enterDrawRegion_pres s Region.line).1
  · exact (enterDrawRegion_pres s Region.line).1

theorem drawLine_colorIdx_ne_zero (sq : ℚ → ℚ) (s : PenState) (p : PenAttributes)
    (x0 y0 x1 y1 : ℚ) :
    (drawLine sq s p x0 y0 x1 y1).aLineColorIndex ≠ 0 := by
  unfold drawLine drawLineOnBuffer
  dsimp only
  rw [appendSegment_colorIdx]
  omega

theorem setCanvasSize_dims (s : PenState) (w h : ℤ) :
    (setCanvasSize s w h).canvasWidth = w ∧
    (setCanvasSize s w h).canvasHeight = h ∧
    (setCanvasSize s w h).nativeSize = s.nativeSize ∧
    (setCanvasSize s w h).silhouetteImageDataW = w ∧
    (setCanvasSize s w h).silhouetteImageDataH = h := by
  unfold setCanvasSize
  dsimp only
  split
  · obtain ⟨o1, o2, o3, -⟩ := drawToBufferOther_pres _
    exact ⟨o1.trans rfl, o2.trans rfl, o3.trans rfl, rfl, rfl⟩
  · exact ⟨rfl, rfl, rfl, rfl, rfl⟩

/-! ## The claims -/

/-- C6: for every attrs and coordinates, `drawPoint(attrs, x, y)` leaves the
component in exactly the same state (batch arrays, cursors, dirty flags,
everything) as `drawLine(attrs, x, y, x, y)` — the source delegates
directly. -/
theorem claim6_drawPoint_eq_drawLine (sq : ℚ → ℚ) (s : PenState) (p : PenAttributes)
    (x y : ℚ) : drawPoint sq s p x y = drawLine sq s p x y x y := rfl

/-- C9 counterexample: `dispose` on a freshly constructed instance leaves
both framebuffers and the line vertex buffers allocated, refuting the claim
that every GPU resource the component allocated is released. -/
theorem claim9_counterexample :
    (dispose (init 480 360)).framebufferAlloc = true ∧
    (dispose (init 480 360)).silhouetteBufferAlloc = true ∧
    (dispose (init 480 360)).lineBufferAlloc = true := ⟨rfl, rfl, rfl⟩

/-- C9 (amended): `dispose()` unregisters the component from the stage's
size-change notifications and deletes the canvas-mirror texture and the
export texture, but releases neither framebuffer nor the line vertex
buffers (those are only replaced on a later resize). -/
theorem claim9_amended_dispose (s : PenState) :
    (dispose s).listenerRegistered = false ∧
    (dispose s).mirrorTextureAlloc = false ∧
    (dispose s).exportTextureAlloc = false ∧
    (dispose s).framebufferAlloc = s.framebufferAlloc ∧
    (dispose s).silhouetteBufferAlloc = s.silhouetteBufferAlloc ∧
    (dispose s).lineBufferAlloc = s.lineBufferAlloc :=
  ⟨rfl, rfl, rfl, rfl, rfl, rfl⟩

/-- C7: `setRenderQuality(q)` with `q` equal to the current render quality
leaves all state unchanged (in particular no surface is reallocated); with
a different `q` the backing-buffer size becomes exactly
`(round(nativeWidth * q), round(nativeHeight * q))` while the publicly
reported `size` still equals the native size. -/
theorem claim7_setRenderQuality (s : PenState) (q : ℚ) :
    (q = s.renderQuality → setRenderQuality s q = s) ∧
    (q ≠ s.renderQuality →
      (setRenderQuality s q).canvasWidth = jsRound ((s.nativeSize.1 : ℚ) * q) ∧
      (setRenderQuality s q).canvasHeight = jsRound ((s.nativeSize.2 : ℚ) * q) ∧
      (setRenderQuality s q).size = s.nativeSize) := by
  constructor
  · intro hq
    unfold setRenderQuality
    rw [if_pos hq.symm]
  · intro hq
    unfold setRenderQuality
    rw [if_neg fun hh => hq hh.symm]
    dsimp only
    obtain ⟨d1, d2, d3, -, -⟩ := setCanvasSize_dims { s with renderQuality := q }
      (jsRound ((s.nativeSize.1 : ℚ) * q)) (jsRound ((s.nativeSize.2 : ℚ) * q))
    exact ⟨d1, d2, d3⟩

/-- C7 witness: at the concrete instance constructed with native size
`[480, 360]`, requesting the current quality `1` changes nothing, and
requesting quality `2` yields a `960 × 720` backing buffer while `size`
still reports `(480, 360)`. -/
theorem claim7_witness :
    setRenderQuality (init 480 360) 1 = init 480 360 ∧
    (setRenderQuality (init 480 360) 2).canvasWidth = jsRound ((480 : ℚ) * 2) ∧
    (setRenderQuality (init 480 360) 2).size = (480, 360) :=
  ⟨(claim7_setRenderQuality (init 480 360) 1).1 rfl,
   ((claim7_setRenderQuality (init 480 360) 2).2 (by decide)).1,
   ((claim7_setRenderQuality (init 480 360) 2).2 (by decide)).2.2⟩

/-- C3: in every state reachable by the public operations, the dirty-flag
implication holds: whenever the raster canvas is dirty, the silhouette is
dirty as well. -/
theorem claim3_dirty_implication (sq : ℚ → ℚ) (s : PenState) (h : Reachable sq s)
    (hc : s.canvasDirty = true) : s.silhouetteDirty = true :=
  (reachable_inv sq s h).flags hc

/-- C3 witness: after a stamp on a fresh instance the canvas is dirty, and
the theorem yields that the silhouette is dirty too. -/
theorem claim3_witness :
    (run constSqrt (init 480 360) [Op.drawStamp 0 0]).canvasDirty = true ∧
    (run constSqrt (init 480 360) [Op.drawStamp 0 0]).silhouetteDirty = true :=
  ⟨rfl, claim3_dirty_implication constSqrt _ ⟨480, 360, [Op.drawStamp 0 0], rfl⟩ rfl⟩

/-- C10: in every reachable state the three batch write cursors stay in
lockstep — the color cursor equals the pen-points cursor, both equal twice
the thickness/length cursor — and each is a multiple of its per-segment
stride (24, 24 and 12 floats), so the batch holds whole 6-vertex records. -/
theorem claim10_cursor_lockstep (sq : ℚ → ℚ) (s : PenState) (h : Reachable sq s) :
    s.aLineColorIndex = s.aPenPointsIndex ∧
    s.aLineColorIndex = 2 * s.aLineThicknessAndLengthIndex ∧
    24 ∣ s.aLineColorIndex ∧ 24 ∣ s.aPenPointsIndex ∧
    12 ∣ s.aLineThicknessAndLengthIndex := by
  have hi := reachable_inv sq s h
  obtain ⟨k, hk⟩ := hi.stride
  have hl2 := hi.lock2
  exact ⟨hi.lock1, hi.lock2, hi.stride, hi.lock1 ▸ hi.stride, ⟨k, by omega⟩⟩

/-- C10 witness: the theorem applied to the freshly constructed state. -/
theorem claim10_witness :
    Reachable constSqrt (init 480 360) ∧
    (init 480 360).aLineColorIndex = (init 480 360).aPenPointsIndex :=
  ⟨⟨480, 360, [], rfl⟩,
   (claim10_cursor_lockstep constSqrt _ ⟨480, 360, [], rfl⟩).1⟩

/-- C2: in every reachable state each batch cursor is within its array's
capacity; and an append issued while the cursor is at an overflowing
position (inside the line region, where the append leaves the cursors
untouched before the check) first flushes, so the 6 new records occupy
positions 0–23 of a fresh batch — no segment spans two batches. -/
theorem claim2_batch_capacity (sq : ℚ → ℚ) (s : PenState) (h : Reachable sq s) :
    (s.aLineColorIndex ≤ s.aLineColor.length ∧
     s.aLineThicknessAndLengthIndex ≤ s.aLineThicknessAndLength.length ∧
     s.aPenPointsIndex ≤ s.aPenPoints.length) ∧
    (∀ (p : PenAttributes) (x0 y0 x1 y1 : ℚ),
      s.currentRegion = some Region.line →
      s.aLineColorIndex + 24 > s.aLineColor.length →
      (drawLine sq s p x0 y0 x1 y1).aLineColorIndex = 24) := by
  have hi := reachable_inv sq s h
  constructor
  · refine ⟨?_, ?_, ?_⟩
    · rw [hi.colorLen]; exact hi.cap
    · rw [hi.tlLen]
      have := hi.lock2
      have := hi.cap
      omega
    · rw [hi.ptsLen]
      have := hi.lock1
      have := hi.cap
      omega
  · intro p x0 y0 x1 y1 hreg hov
    have henter : enterDrawRegion s Region.line = s := by
      unfold enterDrawRegion
      rw [if_pos (by rw [hreg])]
    unfold drawLine drawLineOnBuffer
    dsimp only
    rw [appendSegment_colorIdx, henter, if_pos hov]
    rfl

/-- C2 witness: the theorem applied to the freshly constructed state. -/
theorem claim2_witness :
    Reachable constSqrt (init 480 360) ∧
    (init 480 360).aLineColorIndex ≤ (init 480 360).aLineColor.length :=
  ⟨⟨480, 360, [], rfl⟩,
   ((claim2_batch_capacity constSqrt _ ⟨480, 360, [], rfl⟩).1).1⟩

/-! ## C1: getTexture after drawLine -/

theorem exitDrawLineOnBuffer_of_ne (s : PenState) (hnz : s.aLineColorIndex ≠ 0) :
    exitDrawLineOnBuffer s = flushLines s := by
  unfold exitDrawLineOnBuffer
  rw [if_pos hnz]

theorem drawToBufferMirror_from_line (s : PenState)
    (hr : s.currentRegion = some Region.line) (hnz : s.aLineColorIndex ≠ 0) :
    (drawToBufferMirror s).aLineColorIndex = 0 ∧
    (drawToBufferMirror s).flushCount = s.flushCount + 1 := by
  unfold drawToBufferMirror enterDrawRegion
  dsimp only
  rw [if_neg (show ¬s.currentRegion = some Region.toBuffer by rw [hr]; decide)]
  simp only [hr, regionExit, regionEnter, enterDrawToBuffer]
  rw [exitDrawLineOnBuffer_of_ne]
  · exact ⟨rfl, rfl⟩
  · exact hnz

/-- C1 counterexample: on a freshly constructed instance (raster surface
not dirty), `drawLine` followed by `getTexture` leaves the 24 floats of the
segment pending in the batch (cursor 24, zero flushes): the line has not
been flushed into the export framebuffer when `getTexture` returns. -/
theorem claim1_counterexample :
    (getTexture (drawLine constSqrt (init 480 360) DefaultPenAttributes 0 0 100 0)).1.aLineColorIndex
        = 24 ∧
    (getTexture (drawLine constSqrt (init 480 360) DefaultPenAttributes 0 0 100 0)).1.flushCount
        = 0 := ⟨rfl, rfl⟩

/-- C1 (amended): a `drawLine` followed by `getTexture` flushes the pending
line batch into the export framebuffer only when the raster surface is
dirty — the merge path's draw-region switch exits the line region, which
flushes; with a clean raster surface `getTexture` returns the export
texture without flushing (see the counterexample). -/
theorem claim1_flush_when_canvas_dirty (sq : ℚ → ℚ) (s : PenState) (p : PenAttributes)
    (x0 y0 x1 y1 : ℚ) (hc : s.canvasDirty = true) :
    (getTexture (drawLine sq s p x0 y0 x1 y1)).1.aLineColorIndex = 0 ∧
    (getTexture (drawLine sq s p x0 y0 x1 y1)).1.flushCount =
      (drawLine sq s p x0 y0 x1 y1).flushCount + 1 := by
  have htc : (drawLine sq s p x0 y0 x1 y1).canvasDirty = true := by
    rw [drawLine_canvasDirty]; exact hc
  unfold getTexture
  dsimp only
  rw [if_pos htc]
  exact drawToBufferMirror_from_line _
    (drawLine_currentRegion sq s p x0 y0 x1 y1)
    (drawLine_colorIdx_ne_zero sq s p x0 y0 x1 y1)

/-- C1 witness: a stamp makes the raster surface dirty; then a `drawLine`
followed by `getTexture` has flushed the batch when it returns. -/
theorem claim1_witness :
    (run constSqrt (init 480 360) [Op.drawStamp 0 0]).canvasDirty = true ∧
    (getTexture (drawLine constSqrt (run constSqrt (init 480 360) [Op.drawStamp 0 0])
      DefaultPenAttributes 0 0 100 0)).1.aLineColorIndex = 0 :=
  ⟨rfl,
   (claim1_flush_when_canvas_dirty constSqrt _ DefaultPenAttributes 0 0 100 0 rfl).1⟩

/-- C8: `updateSilhouette()` with a clean silhouette is a no-op (the state
is unchanged, so no read-back and no handoff happen); with a dirty
silhouette it merges the raster surface exactly when that surface is dirty,
reads back the full backing-buffer pixel rectangle, hands the image data to
the owning skin's silhouette updater declaring it premultiplied, and leaves
both dirty flags false. -/
theorem claim8_updateSilhouette (s : PenState) :
    (s.silhouetteDirty = false → updateSilhouette s = s) ∧
    (s.silhouetteDirty = true →
      (updateSilhouette s).silhouetteDirty = false ∧
      (updateSilhouette s).canvasDirty = false ∧
      (updateSilhouette s).canvasUploads =
        s.canvasUploads + (if s.canvasDirty then 1 else 0) ∧
      (updateSilhouette s).readbacks = s.readbacks ++ [(s.canvasWidth, s.canvasHeight)] ∧
      (updateSilhouette s).silhouetteUpdates =
        s.silhouetteUpdates ++ [(s.silhouetteImageDataW, s.silhouetteImageDataH, true)]) := by
  constructor
  · intro hsd
    unfold updateSilhouette
    rw [if_neg (by rw [hsd]; decide)]
  · intro hsd
    unfold updateSilhouette
    rw [if_pos hsd]
    dsimp only
    cases hcd : s.canvasDirty with
    | false =>
      simp only [Bool.false_eq_true, if_false]
      obtain ⟨e1, e2, e3, e4, e5, e6, e7, e8, -, -, -⟩ := enterDrawRegion_pres s Region.toBuffer
      refine ⟨?_, e1.trans hcd, ?_, ?_, ?_⟩
      · trivial
      · rw [e2]; omega
      · rw [e7, e3, e4]
      · rw [e8, e5, e6]
    | true =>
      simp only [eq_self_iff_true, if_true]
      have mcd := drawToBufferMirror_canvasDirty s
      have mup := drawToBufferMirror_canvasUploads s
      obtain ⟨m1, m2, m3, m4, m5, m6, -, -, -⟩ := drawToBufferMirror_pres s
      obtain ⟨e1, e2, e3, e4, e5, e6, e7, e8, -, -, -⟩ :=
        enterDrawRegion_pres (drawToBufferMirror s) Region.toBuffer
      refine ⟨?_, e1.trans mcd, ?_, ?_, ?_⟩
      · trivial
      · rw [e2, mup]
      · rw [e7, m5, e3, m1, e4, m2]
      · rw [e8, m6, e5, m3, e6, m4]

/-- C8 witness: on a fresh instance (silhouette dirty) `updateSilhouette`
performs the read-back and premultiplied handoff; running it again on the
now-clean state changes nothing. -/
theorem claim8_witness :
    ((init 480 360).silhouetteDirty = true ∧
     (updateSilhouette (init 480 360)).readbacks =
       (init 480 360).readbacks ++
         [((init 480 360).canvasWidth, (init 480 360).canvasHeight)] ∧
     (updateSilhouette (init 480 360)).silhouetteUpdates =
       (init 480 360).silhouetteUpdates ++
         [((init 480 360).silhouetteImageDataW, (init 480 360).silhouetteImageDataH, true)]) ∧
    ((updateSilhouette (init 480 360)).silhouetteDirty = false ∧
     updateSilhouette (updateSilhouette (init 480 360)) = updateSilhouette (init 480 360)) :=
  ⟨⟨rfl,
    ((claim8_updateSilhouette (init 480 360)).2 rfl).2.2.2.1,
    ((claim8_updateSilhouette (init 480 360)).2 rfl).2.2.2.2⟩,
   ⟨((claim8_updateSilhouette (init 480 360)).2 rfl).1,
    (claim8_updateSilhouette (updateSilhouette (init 480 360))).1 rfl⟩⟩

/-! ## C4 and C5: contents of the appended records -/

theorem drawLineOnBuffer_readback (sq : ℚ → ℚ) (s : PenState) (p : PenAttributes)
    (x0 y0 x1 y1 : ℚ) (hinv : PenInv s) (j : ℕ) (hj : j < 24) :
    ((drawLineOnBuffer sq s p x0 y0 x1 y1).aLineColor.data
      ((drawLineOnBuffer sq s p x0 y0 x1 y1).aLineColorIndex - 24 + j) =
      (segColorList (premul (effColor p))).getD j 0) ∧
    ((drawLineOnBuffer sq s p x0 y0 x1 y1).aPenPoints.data
      ((drawLineOnBuffer sq s p x0 y0 x1 y1).aPenPointsIndex - 24 + j) =
      (segPtsList x0 y0 (x1 - x0) (y1 - y0)).getD j 0) := by
  unfold drawLineOnBuffer
  dsimp only
  set t := if (enterDrawRegion s Region.line).aLineColorIndex + 24 >
      (enterDrawRegion s Region.line).aLineColor.length
    then flushLines (enterDrawRegion s Region.line)
    else enterDrawRegion s Region.line with htdef
  have ht : PenInv t := by
    rw [htdef]
    split
    · exact inv_flushLines _ (inv_enterDrawRegion s _ hinv)
    · exact inv_enterDrawRegion s _ hinv
  have hcap : t.aLineColorIndex + 24 ≤ 65520 := by
    rw [htdef]
    split
    · norm_num [flushLines]
    · next hov =>
      rw [(inv_enterDrawRegion s Region.line hinv).colorLen] at hov
      omega
  constructor
  · rw [appendSegment_color, appendSegment_colorIdx]
    have hb : t.aLineColorIndex + 24 - 24 + j = t.aLineColorIndex + j := by omega
    rw [hb]
    refine pushList_data_get _ _ _ j ?_ ?_
    · simp [segColorList]; omega
    · rw [ht.colorLen]
      simp [segColorList]
      omega
  · rw [appendSegment_pts, appendSegment_ptsIdx]
    have hb : t.aPenPointsIndex + 24 - 24 + j = t.aPenPointsIndex + j := by omega
    rw [hb]
    refine pushList_data_get _ _ _ j ?_ ?_
    · simp [segPtsList]; omega
    · rw [ht.ptsLen]
      have := ht.lock1
      have := hcap
      simp [segPtsList]
      omega

theorem drawLine_color_readback (sq : ℚ → ℚ) (s : PenState) (p : PenAttributes)
    (x0 y0 x1 y1 : ℚ) (hinv : PenInv s) (j : ℕ) (hj : j < 24) :
    (drawLine sq s p x0 y0 x1 y1).aLineColor.data
      ((drawLine sq s p x0 y0 x1 y1).aLineColorIndex - 24 + j) =
    (segColorList (premul (effColor p))).getD j 0 := by
  unfold drawLine
  dsimp only
  exact (drawLineOnBuffer_readback sq s p _ _ _ _ hinv j hj).1

theorem drawLine_pts_readback (sq : ℚ → ℚ) (s : PenState) (p : PenAttributes)
    (x0 y0 x1 y1 : ℚ) (hinv : PenInv s) (j : ℕ) (hj : j < 24) :
    (drawLine sq s p x0 y0 x1 y1).aPenPoints.data
      ((drawLine sq s p x0 y0 x1 y1).aPenPointsIndex - 24 + j) =
    (segPtsList (x0 + penOffset (effDiameter p)) (y0 + penOffset (effDiameter p))
      ((x1 + penOffset (effDiameter p)) - (x0 + penOffset (effDiameter p)))
      ((y1 + penOffset (effDiameter p)) - (y0 + penOffset (effDiameter p)))).getD j 0 := by
  unfold drawLine
  dsimp only
  exact (drawLineOnBuffer_readback sq s p _ _ _ _ hinv j hj).2

theorem segColorList_getD (c : Color4) (i : ℕ) (hi : i < 6) :
    (segColorList c).getD (4 * i) 0 = c.r ∧
    (segColorList c).getD (4 * i + 1) 0 = c.g ∧
    (segColorList c).getD (4 * i + 2) 0 = c.b ∧
    (segColorList c).getD (4 * i + 3) 0 = c.a := by
  interval_cases i <;> exact ⟨rfl, rfl, rfl, rfl⟩

theorem segPtsList_getD (x0 y0 dx dy : ℚ) (i : ℕ) (hi : i < 6) :
    (segPtsList x0 y0 dx dy).getD (4 * i) 0 = x0 ∧
    (segPtsList x0 y0 dx dy).getD (4 * i + 1) 0 = -y0 ∧
    (segPtsList x0 y0 dx dy).getD (4 * i + 2) 0 = dx ∧
    (segPtsList x0 y0 dx dy).getD (4 * i + 3) 0 = -dy := by
  interval_cases i <;> exact ⟨rfl, rfl, rfl, rfl⟩

/-- C5: for every input color `(r, g, b, a)` with components in `[0, 1]`,
each of the 6 vertex records appended by a `drawLine` stores exactly the
premultiplied color `(r*a, g*a, b*a, a)`. -/
theorem claim5_premultiplied_color (sq : ℚ → ℚ) (s : PenState) (h : Reachable sq s)
    (p : PenAttributes) (r g b a : ℚ) (hcol : p.color4f = some ⟨r, g, b, a⟩)
    (hr0 : 0 ≤ r) (hr1 : r ≤ 1) (hg0 : 0 ≤ g) (hg1 : g ≤ 1)
    (hb0 : 0 ≤ b) (hb1 : b ≤ 1) (ha0 : 0 ≤ a) (ha1 : a ≤ 1)
    (x0 y0 x1 y1 : ℚ) (i : ℕ) (hi : i < 6) :
    (drawLine sq s p x0 y0 x1 y1).aLineColor.data
      ((drawLine sq s p x0 y0 x1 y1).aLineColorIndex - 24 + 4 * i) = r * a ∧
    (drawLine sq s p x0 y0 x1 y1).aLineColor.data
      ((drawLine sq s p x0 y0 x1 y1).aLineColorIndex - 24 + (4 * i + 1)) = g * a ∧
    (drawLine sq s p x0 y0 x1 y1).aLineColor.data
      ((drawLine sq s p x0 y0 x1 y1).aLineColorIndex - 24 + (4 * i + 2)) = b * a ∧
    (drawLine sq s p x0 y0 x1 y1).aLineColor.data
      ((drawLine sq s p x0 y0 x1 y1).aLineColorIndex - 24 + (4 * i + 3)) = a := by
  have hinv := reachable_inv sq s h
  have hpm : premul (effColor p) = ⟨r * a, g * a, b * a, a⟩ := by
    simp [premul, effColor, hcol]
  obtain ⟨g0, g1, g2, g3⟩ := segColorList_getD (premul (effColor p)) i hi
  refine ⟨?_, ?_, ?_, ?_⟩
  · rw [drawLine_color_readback sq s p x0 y0 x1 y1 hinv (4 * i) (by omega), g0, hpm]
  · rw [drawLine_color_readback sq s p x0 y0 x1 y1 hinv (4 * i + 1) (by omega), g1, hpm]
  · rw [drawLine_color_readback sq s p x0 y0 x1 y1 hinv (4 * i + 2) (by omega), g2, hpm]
  · rw [drawLine_color_readback sq s p x0 y0 x1 y1 hinv (4 * i + 3) (by omega), g3, hpm]

/-- C5 witness: drawing with color `(1/2, 1/3, 1, 1/2)` stores
`r * a = 1/2 * (1/2)` in the first color slot of the appended segment. -/
theorem claim5_witness :
    (0 : ℚ) ≤ 1 / 2 ∧
    (drawLine constSqrt (init 480 360)
        ⟨some 5, some ⟨1 / 2, 1 / 3, 1, 1 / 2⟩⟩ 0 0 100 0).aLineColor.data
      ((drawLine constSqrt (init 480 360)
        ⟨some 5, some ⟨1 / 2, 1 / 3, 1, 1 / 2⟩⟩ 0 0 100 0).aLineColorIndex - 24 + 4 * 0)
      = 1 / 2 * (1 / 2) :=
  ⟨by norm_num,
   (claim5_premultiplied_color constSqrt (init 480 360) ⟨480, 360, [], rfl⟩
      ⟨some 5, some ⟨1 / 2, 1 / 3, 1, 1 / 2⟩⟩ (1 / 2) (1 / 3) 1 (1 / 2) rfl
      (by norm_num) (by norm_num) (by norm_num) (by norm_num)
      (by norm_num) (by norm_num) (by norm_num) (by norm_num)
      0 0 100 0 0 (by norm_num)).1⟩

/-- C4: when the effective pen diameter is exactly 1 or exactly 3, both
endpoints are shifted by exactly `(0.5, 0.5)` before being appended: every
pen-point record stores start `(x0 + 1/2, -(y0 + 1/2))` with the deltas
unchanged; for any other diameter no offset is applied. -/
theorem claim4_pixel_offset (sq : ℚ → ℚ) (s : PenState) (h : Reachable sq s)
    (p : PenAttributes) (x0 y0 x1 y1 : ℚ) (i : ℕ) (hi : i < 6) :
    (effDiameter p = 1 ∨ effDiameter p = 3 →
      (drawLine sq s p x0 y0 x1 y1).aPenPoints.data
        ((drawLine sq s p x0 y0 x1 y1).aPenPointsIndex - 24 + 4 * i) = x0 + 1 / 2 ∧
      (drawLine sq s p x0 y0 x1 y1).aPenPoints.data
        ((drawLine sq s p x0 y0 x1 y1).aPenPointsIndex - 24 + (4 * i + 1)) = -(y0 + 1 / 2) ∧
      (drawLine sq s p x0 y0 x1 y1).aPenPoints.data
        ((drawLine sq s p x0 y0 x1 y1).aPenPointsIndex - 24 + (4 * i + 2)) = x1 - x0 ∧
      (drawLine sq s p x0 y0 x1 y1).aPenPoints.data
        ((drawLine sq s p x0 y0 x1 y1).aPenPointsIndex - 24 + (4 * i + 3)) = -(y1 - y0)) ∧
    (¬(effDiameter p = 1 ∨ effDiameter p = 3) →
      (drawLine sq s p x0 y0 x1 y1).aPenPoints.data
        ((drawLine sq s p x0 y0 x1 y1).aPenPointsIndex - 24 + 4 * i) = x0 ∧
      (drawLine sq s p x0 y0 x1 y1).aPenPoints.data
        ((drawLine sq s p x0 y0 x1 y1).aPenPointsIndex - 24 + (4 * i + 1)) = -y0 ∧
      (drawLine sq s p x0 y0 x1 y1).aPenPoints.data
        ((drawLine sq s p x0 y0 x1 y1).aPenPointsIndex - 24 + (4 * i + 2)) = x1 - x0 ∧
      (drawLine sq s p x0 y0 x1 y1).aPenPoints.data
        ((drawLine sq s p x0 y0 x1 y1).aPenPointsIndex - 24 + (4 * i + 3)) = -(y1 - y0)) := by
  have hinv := reachable_inv sq s h
  obtain ⟨g0, g1, g2, g3⟩ := segPtsList_getD (x0 + penOffset (effDiameter p))
    (y0 + penOffset (effDiameter p))
    ((x1 + penOffset (effDiameter p)) - (x0 + penOffset (effDiameter p)))
    ((y1 + penOffset (effDiameter p)) - (y0 + penOffset (effDiameter p))) i hi
  constructor
  · intro hd
    have hoff : penOffset (effDiameter p) = 1 / 2 := by
      unfold penOffset
      rw [if_pos hd]
    refine ⟨?_, ?_, ?_, ?_⟩
    · rw [drawLine_pts_readback sq s p x0 y0 x1 y1 hinv (4 * i) (by omega), g0, hoff]
    · rw [drawLine_pts_readback sq s p x0 y0 x1 y1 hinv (4 * i + 1) (by omega), g1, hoff]
    · rw [drawLine_pts_readback sq s p x0 y0 x1 y1 hinv (4 * i + 2) (by omega), g2, hoff]
      ring
    · rw [drawLine_pts_readback sq s p x0 y0 x1 y1 hinv (4 * i + 3) (by omega), g3, hoff]
      ring
  · intro hd
    have hoff : penOffset (effDiameter p) = 0 := by
      unfold penOffset
      rw [if_neg hd]
    refine ⟨?_, ?_, ?_, ?_⟩
    · rw [drawLine_pts_readback sq s p x0 y0 x1 y1 hinv (4 * i) (by omega), g0, hoff]
      ring
    · rw [drawLine_pts_readback sq s p x0 y0 x1 y1 hinv (4 * i + 1) (by omega), g1, hoff]
      ring
    · rw [drawLine_pts_readback sq s p x0 y0 x1 y1 hinv (4 * i + 2) (by omega), g2, hoff]
      ring
    · rw [drawLine_pts_readback sq s p x0 y0 x1 y1 hinv (4 * i + 3) (by omega), g3, hoff]
      ring

/-- C4 witness: with diameter 1 the stored start-x is `10 + 1/2`; with
diameter 2 it is `10` unchanged. -/
theorem claim4_witness :
    (effDiameter ⟨some 1, none⟩ = 1 ∨ effDiameter ⟨some 1, none⟩ = 3) ∧
    (drawLine constSqrt (init 480 360) ⟨some 1, none⟩ 10 20 30 40).aPenPoints.data
      ((drawLine constSqrt (init 480 360) ⟨some 1, none⟩ 10 20 30 40).aPenPointsIndex
        - 24 + 4 * 0) = 10 + 1 / 2 ∧
    (drawLine constSqrt (init 480 360) ⟨some 2, none⟩ 10 20 30 40).aPenPoints.data
      ((drawLine constSqrt (init 480 360) ⟨some 2, none⟩ 10 20 30 40).aPenPointsIndex
        - 24 + 4 * 0) = 10 :=
  ⟨Or.inl (by decide),
   ((claim4_pixel_offset constSqrt (init 480 360) ⟨480, 360, [], rfl⟩
      ⟨some 1, none⟩ 10 20 30 40 0 (by norm_num)).1 (Or.inl (by decide))).1,
   ((claim4_pixel_offset constSqrt (init 480 360) ⟨480, 360, [], rfl⟩
      ⟨some 2, none⟩ 10 20 30 40 0 (by norm_num)).2 (by decide)).1⟩
